import Mathlib

set_option maxRecDepth 4000

/-!
Shallow embedding of the RAG MVP scripts (load_canonical_documents.py,
generate_embeddings.py, test_rag_query.py, test_rag_simple.py).

Conventions of the embedding:
* JSON numbers are modelled as rationals; JSON text as String.
* HTTP interactions are modelled by passing the (already decoded) response
  of the external service, or an outcome marker for transport failures,
  as an explicit argument to the client function.
* Python exceptions are modelled with Except; a Python function that
  cannot raise is modelled with a plain (non Except) result type.
* The SQL read path (filter by table_name, ORDER BY cosine distance,
  LIMIT top_k) is modelled over an explicit list of stored rows.  The
  cosine distance operator of the store (pgvector) is not part of
  this source tree, so the distance is a function parameter; the fact that
  it is the cosine distance is expressed by the relational predicate
  IsCosineSim (cosine similarity is irrational in general, so it is
  characterised by its defining equation rather than computed).
* Dates are carried as their source strings; the strptime parse of
  load_canonical_documents.py is not needed by any claim and is modelled
  as the identity on the "YYYY-MM-DD" text.
-/

/-- Decoded JSON body of the embedding service response: an optional
status field and an optional embedding field (the latter a float array
per the service contract in the scripts). -/
structure EmbedJson where
  status : Option String
  embedding : Option (List ℚ)
deriving DecidableEq

/-- Failure modes of get_embedding in load_canonical_documents.py: the
raise ValueError("Unexpected response format...") branch and the
raise ValueError("Expected 384-dimensional embedding...") branch. -/
inductive EmbError where
  | formatError : EmbError
  | dimError : Nat → EmbError
deriving DecidableEq

/-- The response envelope probing of get_embedding
(load_canonical_documents.py lines 49-54):
if "embedding" in data, take it; elif "status" in data and
data.get("status") == "success" and "embedding" in data, take it;
else raise ValueError (unexpected format). -/
def pickEmbedding (d : EmbedJson) : Except EmbError (List ℚ) :=
  match d.embedding with
  | some v => .ok v
  | none =>
    -- the elif branch: requires status == "success" AND an embedding key,
    -- but the embedding key is absent on this path
    if d.status = some "success" then
      match d.embedding with
      | some v => .ok v
      | none => .error .formatError
    else .error .formatError

/-- get_embedding of load_canonical_documents.py: envelope probing,
then the 384-dimension check (lines 56-57), returning the vector
verbatim on success. -/
def get_embedding (d : EmbedJson) : Except EmbError (List ℚ) :=
  match pickEmbedding d with
  | .error e => .error e
  | .ok embedding =>
    if embedding.length = 384 then .ok embedding
    else .error (.dimError embedding.length)

/-- embed_query of test_rag_query.py (lines 106-112): embedding defaults
to [] when the key is missing, then a strict 384-dimension check. -/
def embed_query (d : EmbedJson) : Except String (List ℚ) :=
  let embedding := d.embedding.getD []
  if embedding.length ≠ 384 then
    .error ("Expected 384 dimensions, got " ++ toString embedding.length)
  else .ok embedding

/-- embed_query of test_rag_simple.py (lines 23-30): returns
response.json().get("embedding", []) with no dimension check at all. -/
def embed_query_simple (d : EmbedJson) : List ℚ :=
  d.embedding.getD []

/-- embed_text of generate_embeddings.py (lines 24-34): returns
result.get("embedding", []) with no check inside the function. -/
def embed_text (d : EmbedJson) : List ℚ :=
  d.embedding.getD []

/-- A raw JSON document record as consumed by the ingestion scripts.
Optional fields model dict.get; metadata is carried in its serialized
(json.dumps) form. -/
structure RawDoc where
  cluster_name : Option String
  source_type : Option String
  doc_sub_type : Option String
  entity_type : Option String
  component : Option String
  source_name : Option String
  keyspace : Option String
  table_name : Option String
  domain : Option String
  sub_domain : Option String
  event_date : Option String
  time_window : Option String
  content : Option String
  metadata : Option String
deriving DecidableEq

/-- A stored row of the rag_documents table, with the columns written by
the INSERT of load_canonical_documents.py. -/
structure Row where
  cluster_name : Option String
  source_type : Option String
  doc_sub_type : Option String
  entity_type : Option String
  component : Option String
  source_name : Option String
  keyspace : Option String
  table_name : Option String
  domain : Option String
  sub_domain : Option String
  event_date : Option String
  time_window : Option String
  content : String
  metadata : String
  embedding : List ℚ
deriving DecidableEq

/-- Row construction of insert_document (load_canonical_documents.py
lines 96-130): metadata defaults to the serialized empty object,
event_date is kept only when present and truthy (non empty),
all other absent fields become NULL. -/
def mkRow (doc : RawDoc) (content : String) (embedding : List ℚ) : Row :=
  { cluster_name := doc.cluster_name
    source_type := doc.source_type
    doc_sub_type := doc.doc_sub_type
    entity_type := doc.entity_type
    component := doc.component
    source_name := doc.source_name
    keyspace := doc.keyspace
    table_name := doc.table_name
    domain := doc.domain
    sub_domain := doc.sub_domain
    event_date :=
      match doc.event_date with
      | some s => if s = "" then none else some s
      | none => none
    time_window := doc.time_window
    content := content
    metadata := doc.metadata.getD "\x7b\x7d"
    embedding := embedding }

/-- Failure modes of a single document ingestion in
load_canonical_documents.py: the KeyError of doc["content"], or a
get_embedding failure. -/
inductive IngestError where
  | keyError : IngestError
  | embedError : EmbError → IngestError
deriving DecidableEq

/-- insert_document of load_canonical_documents.py (lines 82-137),
given the embedding service response for the document content.  The
second component records the texts sent to the embedding service
(doc["content"] raises KeyError before any call when content is absent;
otherwise exactly one call with the content string is made). -/
def insert_document (doc : RawDoc) (resp : EmbedJson) :
    Except IngestError Row × List String :=
  match doc.content with
  | none => (.error .keyError, [])
  | some c =>
    match get_embedding resp with
    | .error e => (.error (.embedError e), [c])
    | .ok v => (.ok (mkRow doc c v), [c])

/-- Row construction of load_document in generate_embeddings.py
(lines 53-70): a smaller column list; the remaining columns are NULL. -/
def mkRowGen (doc : RawDoc) (content : String) (embedding : List ℚ) : Row :=
  { cluster_name := none
    source_type := doc.source_type
    doc_sub_type := none
    entity_type := none
    component := doc.component
    source_name := doc.source_name
    keyspace := doc.keyspace
    table_name := doc.table_name
    domain := doc.domain
    sub_domain := doc.sub_domain
    event_date := doc.event_date
    time_window := none
    content := content
    metadata := doc.metadata.getD "\x7b\x7d"
    embedding := embedding }

/-- load_document of generate_embeddings.py (lines 39-76): doc["content"]
(KeyError when absent), one embed_text call, then the 384-dimension
check, then the insert row.  Second component records the texts sent to
the embedding service. -/
def load_document (doc : RawDoc) (resp : EmbedJson) :
    Except String Row × List String :=
  match doc.content with
  | none => (.error "KeyError: content", [])
  | some c =>
    let embedding := embed_text resp
    if embedding.length ≠ 384 then
      (.error ("Expected 384-dimensional embedding, got " ++
        toString embedding.length), [c])
    else (.ok (mkRowGen doc c embedding), [c])

/-- Connection state of the ingestion batch: committed rows, the pending
(uncommitted) rows of the current transaction, and the tallies of
load_all_documents in load_canonical_documents.py. -/
structure BatchState where
  committed : List Row
  pending : List Row
  loaded_count : Nat
  failed_count : Nat
deriving DecidableEq

/-- One iteration input of the batch loop of load_all_documents:
either the document file is missing, or the parsed document together
with the embedding service response for it and whether the SQL INSERT
itself succeeds (a store write failure raises in cur.execute). -/
inductive DocInput where
  | missing : DocInput
  | present (doc : RawDoc) (resp : EmbedJson) (insertOk : Bool) : DocInput
deriving DecidableEq

/-- One iteration of the batch loop (load_canonical_documents.py lines
180-201): missing file counts a failure and continues; otherwise
insert_document then conn.commit on success, and on any exception
conn.rollback (discarding the pending transaction), failed_count += 1,
continue. -/
def loadStep (s : BatchState) (i : DocInput) : BatchState :=
  match i with
  | .missing => { s with failed_count := s.failed_count + 1 }
  | .present doc resp insertOk =>
    match (insert_document doc resp).1 with
    | .error _ =>
      -- exception before cur.execute: rollback, count, continue
      { s with pending := [], failed_count := s.failed_count + 1 }
    | .ok row =>
      if insertOk then
        -- cur.execute appends the row to the transaction, conn.commit
        -- publishes the pending rows
        { s with committed := s.committed ++ s.pending ++ [row],
                 pending := [],
                 loaded_count := s.loaded_count + 1 }
      else
        -- cur.execute raised: rollback, count, continue
        { s with pending := [], failed_count := s.failed_count + 1 }

/-- The batch loop of load_all_documents (load_canonical_documents.py
lines 179-201); the same commit-or-rollback-per-document loop appears in
main of generate_embeddings.py (lines 122-131). -/
def load_all_documents (docs : List DocInput) (s : BatchState) : BatchState :=
  docs.foldl loadStep s

/-- Whether a present document input fails during normalization,
embedding, or SQL insertion. -/
def docFails (i : DocInput) : Bool :=
  match i with
  | .missing => false
  | .present doc resp insertOk =>
    (match (insert_document doc resp).1 with
     | .error _ => true
     | .ok _ => false) || !insertOk

/-- Dot product of two float vectors (used to characterise the cosine
distance operator of the store). -/
def dotProd : List ℚ → List ℚ → ℚ
  | x :: xs, y :: ys => x * y + dotProd xs ys
  | _, _ => 0

/-- Squared Euclidean norm. -/
def normSq (v : List ℚ) : ℚ := dotProd v v

/-- s is the cosine similarity of a and b: both vectors are nonzero and
s = dot(a,b) / (norm(a) * norm(b)).  Since the norms are irrational in
general, the quotient is characterised by squaring plus the sign of the
dot product, which determines s uniquely. -/
def IsCosineSim (a b : List ℚ) (s : ℚ) : Prop :=
  normSq a ≠ 0 ∧ normSq b ≠ 0 ∧
  s ^ 2 * (normSq a * normSq b) = dotProd a b ^ 2 ∧
  (0 ≤ s ↔ 0 ≤ dotProd a b)

instance (a b : List ℚ) (s : ℚ) : Decidable (IsCosineSim a b s) :=
  inferInstanceAs (Decidable (_ ∧ _ ∧ _ ∧ _))

/-- Comparison of two stored rows by distance to the query embedding,
the ORDER BY key of the retrieval SQL. -/
def distLe (dist : List ℚ → List ℚ → ℚ) (q : List ℚ) (a b : Row) : Prop :=
  dist q a.embedding ≤ dist q b.embedding

instance (dist : List ℚ → List ℚ → ℚ) (q : List ℚ) :
    DecidableRel (distLe dist q) :=
  fun a b => inferInstanceAs (Decidable (_ ≤ _))

instance (dist : List ℚ → List ℚ → ℚ) (q : List ℚ) :
    IsTotal Row (distLe dist q) :=
  ⟨fun a b => le_total _ _⟩

instance (dist : List ℚ → List ℚ → ℚ) (q : List ℚ) :
    IsTrans Row (distLe dist q) :=
  ⟨fun _ _ _ h1 h2 => le_trans h1 h2⟩

/-- The result dictionary shape built by retrieve_context
(test_rag_query.py lines 161-171). -/
structure Ctx where
  source_type : Option String
  component : Option String
  source_name : Option String
  content : String
  metadata : String
  event_date : Option String
  similarity : Option ℚ
deriving DecidableEq

/-- Projection of a stored row to a result dictionary, with similarity
1 - distance; the Python truthiness check float(row[6]) if row[6] else
None maps an exactly-zero similarity to None. -/
def toCtx (dist : List ℚ → List ℚ → ℚ) (q : List ℚ) (r : Row) : Ctx :=
  let s := 1 - dist q r.embedding
  { source_type := r.source_type
    component := r.component
    source_name := r.source_name
    content := r.content
    metadata := r.metadata
    event_date := r.event_date
    similarity := if s = 0 then none else some s }

/-- The row sequence produced by the retrieval SQL of retrieve_context
(test_rag_query.py lines 152-159 and test_rag_simple.py lines 46-53):
WHERE table_name = tf, ORDER BY embedding distance ascending (tie order
unspecified in the store; modelled with a stable sort), LIMIT k. -/
def searchRows (dist : List ℚ → List ℚ → ℚ) (q : List ℚ) (tf : String)
    (k : Nat) (store : List Row) : List Row :=
  (List.insertionSort (distLe dist q)
    (store.filter fun r => r.table_name == some tf)).take k

/-- retrieve_context: the retrieval SQL followed by the per-row
dictionary projection. -/
def retrieve_context (dist : List ℚ → List ℚ → ℚ) (q : List ℚ)
    (tf : String) (k : Nat) (store : List Row) : List Ctx :=
  (searchRows dist q tf k store).map (toCtx dist q)

/-- The write path of the store: cur.execute of the INSERT followed by
conn.commit appends one row. -/
def insertRow (store : List Row) (r : Row) : List Row := store ++ [r]

/-- Python str() of an optional string (None prints as "None" inside an
f-string). -/
def pyStr : Option String → String
  | some s => s
  | none => "None"

/-- One entry of the context block: the bracketed header followed by the
content (test_rag_query.py line 202, test_rag_simple.py line 109). -/
def contextEntry (c : Ctx) : String :=
  "[" ++ pyStr c.source_type ++ " - " ++ pyStr c.component ++ "]\n" ++
    c.content

/-- The context block sent to the generation service:
"\n\n".join of the entries, in the given order. -/
def contextBlock (contexts : List Ctx) : String :=
  String.intercalate "\n\n" (contexts.map contextEntry)

/-- The JSON payload POSTed by generate_answer (test_rag_query.py lines
217-226). -/
structure GenRequest where
  query : String
  context : String
  max_tokens : Nat
  temperature : ℚ
deriving DecidableEq

/-- max_tokens configuration of test_rag_query.py. -/
def MAX_TOKENS : Nat := 100

/-- Decoded JSON body of the generation service response. -/
structure GenJson where
  text : Option String
  status : Option String
deriving DecidableEq

/-- Outcome of the generation POST: a timeout, a connection failure, or
a response with an HTTP status code, a raw body text and a decoded JSON
body. -/
inductive GenOutcome where
  | timeout : GenOutcome
  | connectionError : GenOutcome
  | response (code : Nat) (bodyText : String) (body : GenJson) : GenOutcome
deriving DecidableEq

/-- The placeholder returned by generate_answer on an empty answer. -/
def EMPTY_ANSWER : String :=
  "Error: Empty answer received from API. Check Phi-4 container logs."

/-- A valid 384-dimensional embedding vector. -/
def v384 : List ℚ := List.replicate 384 1

/-- The first 384-dimensional standard basis vector. -/
def e384 : List ℚ := 1 :: List.replicate 383 0

/-- The negation of the first standard basis vector. -/
def negE384 : List ℚ := (-1) :: List.replicate 383 0

/-- A well-formed embedding service response with a 384-float vector. -/
def respOk384 : EmbedJson := { status := some "success", embedding := some v384 }

/-- An embedding service response whose status field says error but which
still carries a 384-float vector. -/
def respStatusErr : EmbedJson := { status := some "error", embedding := some v384 }

/-- An embedding service response carrying a length-2 vector. -/
def respLen2 : EmbedJson := { status := none, embedding := some [1, 2] }

/-- A raw document with every field absent. -/
def docNoContent : RawDoc :=
  { cluster_name := none, source_type := none, doc_sub_type := none
    entity_type := none, component := none, source_name := none
    keyspace := none, table_name := none, domain := none
    sub_domain := none, event_date := none, time_window := none
    content := none, metadata := none }

/-- A raw document whose content is present but the empty string. -/
def docEmptyContent : RawDoc := { docNoContent with content := some "" }

/-- A raw document with nonempty content, scoped to the tracked table. -/
def docX : RawDoc :=
  { docNoContent with content := some "x",
                      table_name := some "dda_transactions" }

/-- A stored row template for the tracked table. -/
def baseRow : Row :=
  { cluster_name := none, source_type := some "metadata"
    doc_sub_type := none, entity_type := none
    component := some "comp", source_name := none
    keyspace := none, table_name := some "dda_transactions"
    domain := none, sub_domain := none, event_date := none
    time_window := none, content := "c", metadata := "\x7b\x7d"
    embedding := [] }

/-- A stored row whose embedding is the first basis vector. -/
def rowA : Row := { baseRow with source_name := some "A", embedding := e384 }

/-- A stored row whose embedding is the negated first basis vector. -/
def rowB : Row := { baseRow with source_name := some "B", embedding := negE384 }

/-- A concrete distance function that agrees with the cosine distance on
the sample rows above when the query is e384 (their cosine similarity to
e384 is exactly the first coordinate). -/
def distHd : List ℚ → List ℚ → ℚ := fun _ e => 1 - e.headD 0

/-- An empty initial batch state. -/
def state0 : BatchState :=
  { committed := [], pending := [], loaded_count := 0, failed_count := 0 }

/-- generate_answer of test_rag_query.py (lines 196-284): builds the
request payload with the context block, then on timeout, connection
error or a raise_for_status HTTP error (status >= 400) returns a
descriptive error string; on a successful response returns the stripped
text, or the placeholder when the text is missing or blank.  The float
formatting of the elapsed seconds is abstracted as a string.  The first
component is the request payload sent to the service; the second is the
returned answer, with Except marking any exception escaping the call
(no branch produces one). -/
def generate_answer (url elapsed query : String) (contexts : List Ctx)
    (outcome : GenOutcome) : GenRequest × Except String String :=
  let request : GenRequest :=
    { query := query
      context := contextBlock contexts
      max_tokens := MAX_TOKENS
      temperature := 3 / 10 }
  (request,
    match outcome with
    | .timeout =>
      .ok ("Error: Request timed out after " ++ elapsed ++
        " seconds. CPU inference is very slow.")
    | .connectionError =>
      .ok ("Error: Cannot connect to Phi-4 API. Check if container is running at "
        ++ url)
    | .response code bodyText body =>
      if 400 ≤ code then
        .ok ("Error: HTTP " ++ toString code ++ " - " ++ bodyText.take 200)
      else
        let answer := body.text.getD ""
        if answer = "" ∨ answer.trim = "" then .ok EMPTY_ANSWER
        else .ok answer.trim)

/-! ### Helper lemmas -/

theorem exceptOk_of_pickEmbedding {d : EmbedJson} {v : List ℚ}
    (h : pickEmbedding d = .ok v) : d.embedding = some v := by
  unfold pickEmbedding at h
  cases hd : d.embedding with
  | some w => rw [hd] at h; cases h; rfl
  | none =>
    rw [hd] at h
    split at h <;> simp_all

theorem intercalate_go_append (s : String) :
    ∀ (l : List String) (x y : String),
      String.intercalate.go (x ++ y) s l = x ++ String.intercalate.go y s l := by
  intro l
  induction l with
  | nil => intro x y; rfl
  | cons a as ih =>
    intro x y
    show String.intercalate.go (x ++ y ++ s ++ a) s as =
      x ++ String.intercalate.go (y ++ s ++ a) s as
    rw [String.append_assoc x y s, String.append_assoc x (y ++ s) a]
    exact ih x (y ++ s ++ a)

theorem contextBlock_cons (c : Ctx) (cs : List Ctx) :
    contextBlock (c :: cs) =
      contextEntry c ++ (if cs.isEmpty then "" else "\n\n" ++ contextBlock cs) := by
  cases cs with
  | nil =>
    show String.intercalate "\n\n" [contextEntry c] = contextEntry c ++ ""
    rw [String.append_empty]
    rfl
  | cons b bs =>
    show String.intercalate.go (contextEntry c ++ "\n\n" ++ contextEntry b) "\n\n"
        (List.map contextEntry bs) =
      contextEntry c ++ ("\n\n" ++ String.intercalate "\n\n"
        (contextEntry b :: List.map contextEntry bs))
    rw [← String.append_assoc]
    exact intercalate_go_append "\n\n" (List.map contextEntry bs)
      (contextEntry c ++ "\n\n") (contextEntry b)

/-! ### Claims -/

/-- C1 counterexample: the claim quantifies over every embedding call,
including embed_query of test_rag_simple.py, but that function returns a
length-2 vector unchanged, raising nothing. -/
theorem C1_counterexample :
    embed_query_simple respLen2 = [1, 2] ∧ ([1, 2] : List ℚ).length ≠ 384 :=
  ⟨rfl, by decide⟩

/-- C1 amended: get_embedding (ingestion) and embed_query of
test_rag_query.py raise a dimension error whenever the response carries
an embedding of length other than 384, and on success return exactly the
384-float vector of the response, never truncated or padded; but
embed_query of test_rag_simple.py performs no dimension check and
returns the response vector (or [] when absent) as is. -/
theorem C1_dimension_check :
    (∀ (d : EmbedJson) (v : List ℚ), d.embedding = some v → v.length ≠ 384 →
      get_embedding d = .error (.dimError v.length)) ∧
    (∀ (d : EmbedJson) (v : List ℚ), get_embedding d = .ok v →
      v.length = 384 ∧ d.embedding = some v) ∧
    (∀ (d : EmbedJson) (v : List ℚ), d.embedding = some v → v.length ≠ 384 →
      embed_query d = .error ("Expected 384 dimensions, got " ++ toString v.length)) ∧
    (∀ (d : EmbedJson) (v : List ℚ), embed_query d = .ok v →
      v.length = 384 ∧ d.embedding = some v) ∧
    (∀ d : EmbedJson, embed_query_simple d = d.embedding.getD []) := by
  refine ⟨?_, ?_, ?_, ?_, fun d => rfl⟩
  · intro d v h hne
    simp [get_embedding, pickEmbedding, h, hne]
  · intro d v h
    unfold get_embedding at h
    cases hp : pickEmbedding d with
    | error e => rw [hp] at h; cases h
    | ok w =>
      rw [hp] at h
      dsimp only at h
      by_cases hw : w.length = 384
      · rw [if_pos hw] at h
        cases h
        exact ⟨hw, exceptOk_of_pickEmbedding hp⟩
      · rw [if_neg hw] at h; cases h
  · intro d v h hne
    simp [embed_query, h, hne]
  · intro d v h
    simp only [embed_query] at h
    split at h
    · cases h
    · next hlen =>
      cases h
      have hlen384 : (d.embedding.getD []).length = 384 := by
        by_contra hc; exact hlen hc
      refine ⟨hlen384, ?_⟩
      cases hd : d.embedding with
      | some w => rfl
      | none => simp [hd] at hlen384

/-- C1 witness: a length-2 embedding response makes get_embedding raise
the dimension error. -/
theorem C1_witness : get_embedding respLen2 = .error (.dimError 2) :=
  C1_dimension_check.1 respLen2 [1, 2] rfl (by decide)

/-- C10: the response envelope probing accepts any response carrying an
embedding key regardless of the status value (the status == "success"
elif branch is subsumed by the plain embedding-key check), a response
with no embedding key raises the format error, and a response with
status "error" but a valid 384-float embedding is accepted and its
vector carried into the inserted row. -/
theorem C10_status_branch_subsumed :
    (∀ (d : EmbedJson) (v : List ℚ), d.embedding = some v →
      pickEmbedding d = .ok v) ∧
    (∀ d : EmbedJson, d.embedding = none →
      pickEmbedding d = .error .formatError) ∧
    (∀ (st : String) (v : List ℚ), v.length = 384 →
      get_embedding { status := some st, embedding := some v } = .ok v) ∧
    (∀ (doc : RawDoc) (resp : EmbedJson) (c : String) (v : List ℚ),
      doc.content = some c → resp.embedding = some v → v.length = 384 →
      insert_document doc resp = (.ok (mkRow doc c v), [c]) ∧
      (mkRow doc c v).embedding = v) := by
  refine ⟨?_, ?_, ?_, ?_⟩
  · intro d v h
    simp [pickEmbedding, h]
  · intro d h
    simp only [pickEmbedding, h]
    split <;> rfl
  · intro st v hv
    simp [get_embedding, pickEmbedding, hv]
  · intro doc resp c v hc hv hlen
    constructor
    · simp [insert_document, hc, get_embedding, pickEmbedding, hv, hlen]
    · rfl

/-- C10 witness: a response with status "error" and a 384-float vector
is accepted verbatim. -/
theorem C10_witness : get_embedding respStatusErr = .ok v384 :=
  C10_status_branch_subsumed.2.2.1 "error" v384 (by rw [v384, List.length_replicate])

/-- C8 counterexample: a document whose content is the empty string is
not rejected: the empty string is sent to the embedding service, and
with a valid 384-float response the document is inserted normally. -/
theorem C8_counterexample :
    (insert_document docEmptyContent respOk384).2 = [""] ∧
    (insert_document docEmptyContent respOk384).1 =
      .ok (mkRow docEmptyContent "" v384) :=
  ⟨rfl, rfl⟩

/-- C8 amended: a document whose content key is absent fails with the
KeyError of doc["content"] before any embedding call (in both ingestion
scripts); but a present content — including the empty string — is always
sent to the embedding service (exactly one call), with no empty-content
validation: an empty-content document with a valid embedding response is
inserted normally. -/
theorem C8_content_handling :
    (∀ (doc : RawDoc) (resp : EmbedJson), doc.content = none →
      insert_document doc resp = (.error .keyError, [])) ∧
    (∀ (doc : RawDoc) (resp : EmbedJson) (c : String), doc.content = some c →
      (insert_document doc resp).2 = [c]) ∧
    (∀ (doc : RawDoc) (resp : EmbedJson), doc.content = none →
      load_document doc resp = (.error "KeyError: content", [])) ∧
    (∀ (doc : RawDoc) (resp : EmbedJson) (c : String), doc.content = some c →
      (load_document doc resp).2 = [c]) ∧
    (∀ (doc : RawDoc) (resp : EmbedJson) (v : List ℚ), doc.content = some "" →
      resp.embedding = some v → v.length = 384 →
      (insert_document doc resp).1 = .ok (mkRow doc "" v)) := by
  refine ⟨?_, ?_, ?_, ?_, ?_⟩
  · intro doc resp h
    simp [insert_document, h]
  · intro doc resp c h
    simp only [insert_document, h]
    cases get_embedding resp <;> rfl
  · intro doc resp h
    simp [load_document, h]
  · intro doc resp c h
    simp only [load_document, h, embed_text]
    split <;> rfl
  · intro doc resp v hc hv hlen
    simp [insert_document, hc, get_embedding, pickEmbedding, hv, hlen]

/-- C8 witness: a document with no content key fails before any
embedding call. -/
theorem C8_witness : insert_document docNoContent respOk384 = (.error .keyError, []) :=
  C8_content_handling.1 docNoContent respOk384 rfl

/-- C2 counterexample: a timeout, a connection failure, and a non-2xx
HTTP status each make generate_answer return an ordinary error string
instead of raising an exception. -/
theorem C2_counterexample :
    (generate_answer "http://localhost:8083/api/rag" "612.3" "q" [] .timeout).2 =
      .ok ("Error: Request timed out after " ++ "612.3" ++
        " seconds. CPU inference is very slow.") ∧
    (generate_answer "http://localhost:8083/api/rag" "1.0" "q" [] .connectionError).2 =
      .ok ("Error: Cannot connect to Phi-4 API. Check if container is running at "
        ++ "http://localhost:8083/api/rag") ∧
    (generate_answer "http://localhost:8083/api/rag" "1.0" "q" []
        (.response 500 "internal error" { text := none, status := none })).2 =
      .ok ("Error: HTTP " ++ toString 500 ++ " - " ++ "internal error".take 200) := by
  refine ⟨rfl, rfl, ?_⟩
  simp only [generate_answer]
  rw [if_pos (by norm_num)]

/-- C2 amended: generate_answer never lets an exception escape; a
timeout, a connection failure, and a raise_for_status HTTP error are all
caught and converted into descriptive "Error: ..." strings returned to
the caller. -/
theorem C2_no_raise :
    (∀ (url elapsed query : String) (contexts : List Ctx) (outcome : GenOutcome),
      ∃ s : String, (generate_answer url elapsed query contexts outcome).2 = .ok s) ∧
    (∀ (url elapsed query : String) (contexts : List Ctx),
      (generate_answer url elapsed query contexts .timeout).2 =
        .ok ("Error: Request timed out after " ++ elapsed ++
          " seconds. CPU inference is very slow.") ∧
      (generate_answer url elapsed query contexts .connectionError).2 =
        .ok ("Error: Cannot connect to Phi-4 API. Check if container is running at "
          ++ url)) ∧
    (∀ (url elapsed query : String) (contexts : List Ctx) (code : Nat)
      (bodyText : String) (body : GenJson), 400 ≤ code →
      (generate_answer url elapsed query contexts (.response code bodyText body)).2 =
        .ok ("Error: HTTP " ++ toString code ++ " - " ++ bodyText.take 200)) := by
  refine ⟨?_, fun url elapsed query contexts => ⟨rfl, rfl⟩, ?_⟩
  · intro url elapsed query contexts outcome
    cases outcome with
    | timeout => exact ⟨_, rfl⟩
    | connectionError => exact ⟨_, rfl⟩
    | response code bodyText body =>
      simp only [generate_answer]
      by_cases h4 : 400 ≤ code
      · rw [if_pos h4]; exact ⟨_, rfl⟩
      · rw [if_neg h4]
        by_cases hb : body.text.getD "" = "" ∨ (body.text.getD "").trim = ""
        · rw [if_pos hb]; exact ⟨_, rfl⟩
        · rw [if_neg hb]; exact ⟨_, rfl⟩
  · intro url elapsed query contexts code bodyText body h4
    simp only [generate_answer]
    rw [if_pos h4]

/-- C2 witness: a 404 response is converted into the HTTP error
string. -/
theorem C2_witness :
    (generate_answer "u" "1.0" "q" []
        (.response 404 "not found" { text := none, status := none })).2 =
      .ok ("Error: HTTP " ++ toString 404 ++ " - " ++ "not found".take 200) :=
  C2_no_raise.2.2 "u" "1.0" "q" [] 404 "not found"
    { text := none, status := none } (by norm_num)

/-- C9: on HTTP 200, a missing, empty or blank text field makes
generate_answer return the descriptive placeholder string rather than
raising, and a non-blank text is returned stripped. -/
theorem C9_empty_answer_soft :
    ∀ (url elapsed query : String) (contexts : List Ctx) (bodyText : String)
      (body : GenJson),
      ((body.text.getD "" = "" ∨ (body.text.getD "").trim = "") →
        (generate_answer url elapsed query contexts
            (.response 200 bodyText body)).2 = .ok EMPTY_ANSWER) ∧
      (¬(body.text.getD "" = "" ∨ (body.text.getD "").trim = "") →
        (generate_answer url elapsed query contexts
            (.response 200 bodyText body)).2 = .ok (body.text.getD "").trim) := by
  intro url elapsed query contexts bodyText body
  constructor
  · intro hb
    simp only [generate_answer]
    rw [if_neg (by norm_num)]
    rw [if_pos hb]
  · intro hb
    simp only [generate_answer]
    rw [if_neg (by norm_num)]
    rw [if_neg hb]

/-- C9 witness: an HTTP 200 response whose text field is missing yields
the placeholder string. -/
theorem C9_witness :
    (generate_answer "u" "1.0" "q" []
        (.response 200 "raw" { text := none, status := some "success" })).2 =
      .ok EMPTY_ANSWER :=
  (C9_empty_answer_soft "u" "1.0" "q" [] "raw"
    { text := none, status := some "success" }).1 (Or.inl rfl)

/-- C7: the context block sent to the generation service is the
concatenation, in exactly the given order, of the bracketed
headers-plus-contents of the contexts, with consecutive entries
separated by a blank line; in particular for two ranked contexts A then
B, the A entry appears strictly before the B entry. -/
theorem C7_context_order :
    (∀ (url elapsed query : String) (contexts : List Ctx) (outcome : GenOutcome),
      (generate_answer url elapsed query contexts outcome).1.context =
        contextBlock contexts) ∧
    (∀ (c : Ctx) (cs : List Ctx),
      contextBlock (c :: cs) =
        contextEntry c ++ (if cs.isEmpty then "" else "\n\n" ++ contextBlock cs)) ∧
    (∀ A B : Ctx, contextBlock [A, B] = contextEntry A ++ "\n\n" ++ contextEntry B) := by
  refine ⟨fun url elapsed query contexts outcome => rfl, contextBlock_cons, ?_⟩
  intro A B
  rw [contextBlock_cons A [B], contextBlock_cons B []]
  simp [String.append_empty, String.append_assoc]

/-- C3: when the handling of one batch document fails (during content
lookup, embedding, or SQL insertion), only the transaction of that
document is rolled back: the committed rows and the loaded tally are
unchanged, the error count increments by exactly 1, and the batch
continues with the remaining documents. -/
theorem C3_per_document_atomicity :
    ∀ (pre : List DocInput) (d : DocInput) (rest : List DocInput)
      (s : BatchState), docFails d = true →
      (loadStep (load_all_documents pre s) d).committed =
        (load_all_documents pre s).committed ∧
      (loadStep (load_all_documents pre s) d).loaded_count =
        (load_all_documents pre s).loaded_count ∧
      (loadStep (load_all_documents pre s) d).failed_count =
        (load_all_documents pre s).failed_count + 1 ∧
      (loadStep (load_all_documents pre s) d).pending = [] ∧
      load_all_documents (pre ++ d :: rest) s =
        load_all_documents rest (loadStep (load_all_documents pre s) d) := by
  intro pre d rest s hd
  have hstep : ∀ t : BatchState,
      loadStep t d = { t with pending := [], failed_count := t.failed_count + 1 } := by
    intro t
    cases d with
    | missing => simp [docFails] at hd
    | present doc resp insertOk =>
      simp only [docFails] at hd
      simp only [loadStep]
      cases hres : (insert_document doc resp).1 with
      | error e => rfl
      | ok row =>
        rw [hres] at hd
        simp only [Bool.false_or] at hd
        cases insertOk with
        | true => simp at hd
        | false => rfl
  refine ⟨by rw [hstep], by rw [hstep], by rw [hstep], by rw [hstep], ?_⟩
  show List.foldl loadStep s (pre ++ d :: rest) = _
  rw [List.foldl_append, List.foldl_cons]
  rfl

/-- C3 witness: in a three-document batch whose middle document gets a
length-2 embedding response, the failure increments the error count by
one, leaves the committed rows of the first document untouched, and the
loop proceeds to the third document. -/
theorem C3_witness :
    docFails (DocInput.present docX respLen2 true) = true ∧
    (loadStep (load_all_documents [DocInput.present docX respOk384 true] state0)
        (DocInput.present docX respLen2 true)).failed_count =
      (load_all_documents [DocInput.present docX respOk384 true] state0).failed_count
        + 1 ∧
    (loadStep (load_all_documents [DocInput.present docX respOk384 true] state0)
        (DocInput.present docX respLen2 true)).committed =
      (load_all_documents [DocInput.present docX respOk384 true] state0).committed ∧
    load_all_documents
        [DocInput.present docX respOk384 true, DocInput.present docX respLen2 true,
         DocInput.present docX respOk384 true] state0 =
      load_all_documents [DocInput.present docX respOk384 true]
        (loadStep (load_all_documents [DocInput.present docX respOk384 true] state0)
          (DocInput.present docX respLen2 true)) :=
  ⟨rfl,
   (C3_per_document_atomicity [DocInput.present docX respOk384 true]
     (DocInput.present docX respLen2 true)
     [DocInput.present docX respOk384 true] state0 rfl).2.2.1,
   (C3_per_document_atomicity [DocInput.present docX respOk384 true]
     (DocInput.present docX respLen2 true)
     [DocInput.present docX respOk384 true] state0 rfl).1,
   (C3_per_document_atomicity [DocInput.present docX respOk384 true]
     (DocInput.present docX respLen2 true)
     [DocInput.present docX respOk384 true] state0 rfl).2.2.2.2⟩

/-! ### Cosine similarity bounds -/

theorem normSq_nonneg : ∀ v : List ℚ, 0 ≤ normSq v := by
  intro v
  induction v with
  | nil => exact le_of_eq rfl
  | cons x xs ih =>
    show (0:ℚ) ≤ x * x + dotProd xs xs
    have hx := mul_self_nonneg x
    have ihx : (0:ℚ) ≤ dotProd xs xs := ih
    linarith

theorem two_mul_le_add_of_sq_le_mul (u v t : ℚ) (hu : 0 ≤ u) (hv : 0 ≤ v)
    (ht : t ^ 2 ≤ u * v) : 2 * t ≤ u + v := by
  nlinarith [sq_nonneg (u - v), hu, hv, ht]

theorem dotProd_sq_le : ∀ a b : List ℚ, dotProd a b ^ 2 ≤ normSq a * normSq b := by
  intro a
  induction a with
  | nil =>
    intro b
    show dotProd [] b ^ 2 ≤ normSq [] * normSq b
    have h1 : dotProd [] b = 0 := by cases b <;> rfl
    have h2 : normSq [] = 0 := rfl
    rw [h1, h2]
    norm_num
  | cons x xs ih =>
    intro b
    cases b with
    | nil =>
      show dotProd (x :: xs) [] ^ 2 ≤ normSq (x :: xs) * normSq []
      have h1 : dotProd (x :: xs) [] = 0 := rfl
      have h2 : normSq [] = 0 := rfl
      rw [h1, h2]
      norm_num
    | cons y ys =>
      have ihy := ih ys
      have hna : 0 ≤ normSq xs := normSq_nonneg xs
      have hnb : 0 ≤ normSq ys := normSq_nonneg ys
      have ht : (x * y * dotProd xs ys) ^ 2 ≤
          (x ^ 2 * normSq ys) * (y ^ 2 * normSq xs) := by
        nlinarith [ihy, sq_nonneg (x * y), sq_nonneg x, sq_nonneg y]
      have h2t : 2 * (x * y * dotProd xs ys) ≤
          x ^ 2 * normSq ys + y ^ 2 * normSq xs :=
        two_mul_le_add_of_sq_le_mul _ _ _ (by positivity) (by positivity) ht
      have e1 : dotProd (x :: xs) (y :: ys) = x * y + dotProd xs ys := rfl
      have e2 : normSq (x :: xs) = x * x + normSq xs := rfl
      have e3 : normSq (y :: ys) = y * y + normSq ys := rfl
      rw [e1, e2, e3]
      nlinarith [ihy, h2t]

theorem IsCosineSim.bounds {a b : List ℚ} {s : ℚ} (h : IsCosineSim a b s) :
    -1 ≤ s ∧ s ≤ 1 := by
  obtain ⟨ha, hb, hsq, _⟩ := h
  have hna : 0 < normSq a := lt_of_le_of_ne (normSq_nonneg a) (Ne.symm ha)
  have hnb : 0 < normSq b := lt_of_le_of_ne (normSq_nonneg b) (Ne.symm hb)
  have hcs := dotProd_sq_le a b
  have hpos : 0 < normSq a * normSq b := mul_pos hna hnb
  have hs2 : s ^ 2 ≤ 1 := by
    have hle : s ^ 2 * (normSq a * normSq b) ≤ 1 * (normSq a * normSq b) := by
      rw [hsq, one_mul]
      exact hcs
    exact le_of_mul_le_mul_right hle hpos
  have habs : |s| ≤ 1 := (sq_le_one_iff_abs_le_one s).mp hs2
  exact abs_le.mp habs

/-! ### Concrete evaluations on the sample vectors -/

theorem dotProd_replicate_zero (n : Nat) :
    dotProd (List.replicate n 0) (List.replicate n 0) = 0 := by
  induction n with
  | zero => rfl
  | succ n ih =>
    show (0:ℚ) * 0 + dotProd (List.replicate n 0) (List.replicate n 0) = 0
    rw [ih]
    norm_num

theorem normSq_e384 : normSq e384 = 1 := by
  show (1:ℚ) * 1 + dotProd (List.replicate 383 0) (List.replicate 383 0) = 1
  rw [dotProd_replicate_zero]
  norm_num

theorem normSq_negE384 : normSq negE384 = 1 := by
  show (-1:ℚ) * -1 + dotProd (List.replicate 383 0) (List.replicate 383 0) = 1
  rw [dotProd_replicate_zero]
  norm_num

theorem dotProd_e384_negE384 : dotProd e384 negE384 = -1 := by
  show (1:ℚ) * -1 + dotProd (List.replicate 383 0) (List.replicate 383 0) = -1
  rw [dotProd_replicate_zero]
  norm_num

theorem IsCosineSim_e384_e384 : IsCosineSim e384 e384 1 := by
  have h1 : dotProd e384 e384 = 1 := normSq_e384
  refine ⟨?_, ?_, ?_, ?_⟩
  · rw [normSq_e384]; norm_num
  · rw [normSq_e384]; norm_num
  · rw [normSq_e384, h1]; norm_num
  · rw [h1]

theorem IsCosineSim_e384_negE384 : IsCosineSim e384 negE384 (-1) := by
  refine ⟨?_, ?_, ?_, ?_⟩
  · rw [normSq_e384]; norm_num
  · rw [normSq_negE384]; norm_num
  · rw [normSq_e384, normSq_negE384, dotProd_e384_negE384]; norm_num
  · rw [dotProd_e384_negE384]

theorem rowA_embedding : rowA.embedding = e384 := rfl

theorem rowB_embedding : rowB.embedding = negE384 := rfl

theorem distHd_e384 (v : List ℚ) : distHd v e384 = 0 := by
  show (1:ℚ) - 1 = 0
  norm_num

theorem distHd_negE384 (v : List ℚ) : distHd v negE384 = 2 := by
  show (1:ℚ) - -1 = 2
  norm_num

/-- In a sorted-then-truncated list, any element of the base list that is
strictly below the element at position j appears at an earlier position. -/
theorem take_sorted_find_earlier {α : Type} (le : α → α → Prop) [DecidableRel le]
    [IsTotal α le] [IsTrans α le] (l : List α) (k : Nat) (x : α) (hx : x ∈ l)
    (j : Nat) (hj : j < ((List.insertionSort le l).take k).length)
    (hlt : ¬ le (((List.insertionSort le l).take k).get ⟨j, hj⟩) x) :
    ∃ (i : Nat) (hi : i < ((List.insertionSort le l).take k).length),
      i < j ∧ ((List.insertionSort le l).take k).get ⟨i, hi⟩ = x := by
  have hsorted : (List.insertionSort le l).Sorted le := List.sorted_insertionSort le l
  have hxS : x ∈ List.insertionSort le l :=
    (List.perm_insertionSort le l).mem_iff.mpr hx
  obtain ⟨p, hp⟩ := List.mem_iff_get.mp hxS
  have hjS : j < (List.insertionSort le l).length := by
    have h := hj
    rw [List.length_take] at h
    exact lt_of_lt_of_le h (Nat.min_le_right _ _)
  have hjk : j < k := by
    have h := hj
    rw [List.length_take] at h
    exact lt_of_lt_of_le h (Nat.min_le_left _ _)
  have hgetj : ((List.insertionSort le l).take k).get ⟨j, hj⟩ =
      (List.insertionSort le l).get ⟨j, hjS⟩ := by
    simp [List.get_eq_getElem, List.getElem_take]
  have hpj : p.val < j := by
    by_contra hle2
    push_neg at hle2
    rcases Nat.eq_or_lt_of_le hle2 with heq | hlt2
    · apply hlt
      rw [hgetj]
      have hjp : (⟨j, hjS⟩ : Fin (List.insertionSort le l).length) = p := Fin.ext heq
      rw [hjp, hp]
      exact (IsTotal.total x x).elim id id
    · apply hlt
      rw [hgetj]
      have hrel := List.Sorted.rel_get_of_lt hsorted
        (a := ⟨j, hjS⟩) (b := p) hlt2
      rw [hp] at hrel
      exact hrel
  have hpk : p.val < ((List.insertionSort le l).take k).length := by
    rw [List.length_take]
    exact lt_min (lt_trans hpj hjk) p.isLt
  refine ⟨p.val, hpk, hpj, ?_⟩
  have hgp : ((List.insertionSort le l).take k).get ⟨p.val, hpk⟩ =
      (List.insertionSort le l).get ⟨p.val, p.isLt⟩ := by
    simp [List.get_eq_getElem, List.getElem_take]
  rw [hgp, ← hp]

/-- C4: the retrieval result is the distance-sorted projection of the
matching rows: at most topK rows are returned, and whenever a stored row
matching the table filter is strictly closer to the query than the row
at position j of the result, it occupies an earlier position of the
result. -/
theorem C4_ranking_monotonicity :
    ∀ (dist : List ℚ → List ℚ → ℚ) (q : List ℚ) (tf : String) (k : Nat)
      (store : List Row),
      retrieve_context dist q tf k store =
        (searchRows dist q tf k store).map (toCtx dist q) ∧
      (searchRows dist q tf k store).length ≤ k ∧
      (∀ r1 : Row, r1 ∈ store → r1.table_name = some tf →
        ∀ (j : Nat) (hj : j < (searchRows dist q tf k store).length),
          dist q r1.embedding <
            dist q ((searchRows dist q tf k store).get ⟨j, hj⟩).embedding →
          ∃ (i : Nat) (hi : i < (searchRows dist q tf k store).length),
            i < j ∧ (searchRows dist q tf k store).get ⟨i, hi⟩ = r1) := by
  intro dist q tf k store
  refine ⟨rfl, List.length_take_le _ _, ?_⟩
  intro r1 hr1 htf j hj hdist
  have hx : r1 ∈ store.filter (fun r => r.table_name == some tf) :=
    List.mem_filter.mpr ⟨hr1, by simp [htf]⟩
  exact take_sorted_find_earlier (distLe dist q) _ k r1 hx j hj (not_le.mpr hdist)

/-- C5 counterexample: with one closer document already stored and
topK = 1, the freshly inserted document (cosine distance 2 from the
query, versus 0 for the stored one) is not among the results, although
its table_name matches and topK ≥ 1; the distance function used agrees
with the cosine distance on both stored rows. -/
theorem C5_counterexample :
    rowB.table_name = some "dda_transactions" ∧
    IsCosineSim e384 rowA.embedding (1 - distHd e384 rowA.embedding) ∧
    IsCosineSim e384 rowB.embedding (1 - distHd e384 rowB.embedding) ∧
    retrieve_context distHd e384 "dda_transactions" 1 (insertRow [rowA] rowB) =
      [toCtx distHd e384 rowA] ∧
    toCtx distHd e384 rowB ∉
      retrieve_context distHd e384 "dda_transactions" 1 (insertRow [rowA] rowB) := by
  have hcosA : IsCosineSim e384 rowA.embedding (1 - distHd e384 rowA.embedding) := by
    rw [rowA_embedding, distHd_e384, show (1:ℚ) - 0 = 1 by norm_num]
    exact IsCosineSim_e384_e384
  have hcosB : IsCosineSim e384 rowB.embedding (1 - distHd e384 rowB.embedding) := by
    rw [rowB_embedding, distHd_negE384, show (1:ℚ) - 2 = -1 by norm_num]
    exact IsCosineSim_e384_negE384
  have hleAB : distLe distHd e384 rowA rowB := by
    show distHd e384 rowA.embedding ≤ distHd e384 rowB.embedding
    rw [rowA_embedding, rowB_embedding, distHd_e384, distHd_negE384]
    norm_num
  have hsortAB : List.insertionSort (distLe distHd e384) [rowA, rowB] = [rowA, rowB] := by
    show List.orderedInsert (distLe distHd e384) rowA [rowB] = [rowA, rowB]
    show (if distLe distHd e384 rowA rowB then rowA :: [rowB]
          else rowB :: List.orderedInsert (distLe distHd e384) rowA []) = [rowA, rowB]
    rw [if_pos hleAB]
  have hsearch : searchRows distHd e384 "dda_transactions" 1 (insertRow [rowA] rowB) =
      [rowA] := by
    show (List.insertionSort (distLe distHd e384)
      ((insertRow [rowA] rowB).filter fun r =>
        r.table_name == some "dda_transactions")).take 1 = [rowA]
    have hfil : (insertRow [rowA] rowB).filter
        (fun r => r.table_name == some "dda_transactions") = [rowA, rowB] := rfl
    rw [hfil, hsortAB]
    rfl
  have hret : retrieve_context distHd e384 "dda_transactions" 1 (insertRow [rowA] rowB) =
      [toCtx distHd e384 rowA] := by
    show (searchRows distHd e384 "dda_transactions" 1 (insertRow [rowA] rowB)).map
      (toCtx distHd e384) = [toCtx distHd e384 rowA]
    rw [hsearch]
    rfl
  refine ⟨rfl, hcosA, hcosB, hret, ?_⟩
  intro hmem
  rw [hret] at hmem
  have heq : toCtx distHd e384 rowB = toCtx distHd e384 rowA :=
    List.mem_singleton.mp hmem
  have hname : (some "B" : Option String) = some "A" := congrArg Ctx.source_name heq
  simp at hname

/-- C5 amended: the inserted document is returned by the search — with
its similarity field carrying 1 minus the cosine distance between the
query and the stored embedding — provided topK is at least the number of
stored rows matching the table filter (a smaller topK can cut the
document off, as the counterexample shows); an exactly-zero similarity
is reported as None by the truthiness conversion. -/
theorem C5_round_trip :
    ∀ (dist : List ℚ → List ℚ → ℚ) (q : List ℚ) (store : List Row) (row : Row)
      (k : Nat),
      row.table_name = some "dda_transactions" →
      ((insertRow store row).filter
        (fun r => r.table_name == some "dda_transactions")).length ≤ k →
      IsCosineSim q row.embedding (1 - dist q row.embedding) →
      ∃ c ∈ retrieve_context dist q "dda_transactions" k (insertRow store row),
        c = toCtx dist q row ∧
        ∀ s, c.similarity = some s →
          s = 1 - dist q row.embedding ∧ IsCosineSim q row.embedding s := by
  intro dist q store row k htf hk hcos
  have hmem : row ∈ (insertRow store row).filter
      (fun r => r.table_name == some "dda_transactions") :=
    List.mem_filter.mpr ⟨by simp [insertRow], by simp [htf]⟩
  have hsorted : row ∈ List.insertionSort (distLe dist q)
      ((insertRow store row).filter fun r =>
        r.table_name == some "dda_transactions") :=
    (List.perm_insertionSort _ _).mem_iff.mpr hmem
  have htake : searchRows dist q "dda_transactions" k (insertRow store row) =
      List.insertionSort (distLe dist q)
        ((insertRow store row).filter fun r =>
          r.table_name == some "dda_transactions") := by
    show (List.insertionSort (distLe dist q)
      ((insertRow store row).filter fun r =>
        r.table_name == some "dda_transactions")).take k = _
    apply List.take_of_length_le
    rw [(List.perm_insertionSort _ _).length_eq]
    exact hk
  refine ⟨toCtx dist q row, ?_, rfl, ?_⟩
  · show toCtx dist q row ∈
      (searchRows dist q "dda_transactions" k (insertRow store row)).map
        (toCtx dist q)
    rw [htake]
    exact List.mem_map_of_mem _ hsorted
  · intro s hs
    by_cases h0 : 1 - dist q row.embedding = 0
    · exfalso
      have hnone : (toCtx dist q row).similarity = none := by simp [toCtx, h0]
      rw [hnone] at hs
      cases hs
    · have hsome : (toCtx dist q row).similarity =
          some (1 - dist q row.embedding) := by simp [toCtx, h0]
      rw [hsome] at hs
      have hss : s = 1 - dist q row.embedding := (Option.some.inj hs).symm
      exact ⟨hss, by rw [hss]; exact hcos⟩

/-- C5 witness: inserting the sample document into an empty store and
searching with topK = 1 returns it. -/
theorem C5_witness :
    ∃ c ∈ retrieve_context distHd e384 "dda_transactions" 1 (insertRow [] rowB),
      c = toCtx distHd e384 rowB ∧
      ∀ s, c.similarity = some s →
        s = 1 - distHd e384 rowB.embedding ∧ IsCosineSim e384 rowB.embedding s :=
  C5_round_trip distHd e384 [] rowB 1 rfl (by decide)
    (by rw [rowB_embedding, distHd_negE384, show (1:ℚ) - 2 = -1 by norm_num]
        exact IsCosineSim_e384_negE384)

/-- C6 counterexample: a stored embedding pointing opposite to the query
has cosine similarity -1, and the search read path reports exactly that
value: the similarity field is not confined to [0,1]. -/
theorem C6_counterexample :
    IsCosineSim e384 rowB.embedding (-1) ∧
    retrieve_context distHd e384 "dda_transactions" 6 [rowB] =
      [toCtx distHd e384 rowB] ∧
    (toCtx distHd e384 rowB).similarity = some (-1) ∧
    ¬ (0 ≤ (-1 : ℚ)) := by
  refine ⟨by rw [rowB_embedding]; exact IsCosineSim_e384_negE384, rfl, ?_, by norm_num⟩
  show (let s := 1 - distHd e384 rowB.embedding;
    if s = 0 then none else some s) = some (-1)
  rw [rowB_embedding, distHd_negE384]
  norm_num

/-- C6 amended: for every RetrievedContext produced by the search read
path over rows whose similarity agrees with the cosine similarity, a
reported (non-None) similarity value lies in [-1, 1] — not [0, 1]: it is
negative whenever the stored embedding points away from the query, and a
value of exactly 0 is reported as None. -/
theorem C6_similarity_range :
    ∀ (dist : List ℚ → List ℚ → ℚ) (q : List ℚ) (tf : String) (k : Nat)
      (store : List Row),
      (∀ r ∈ store, r.table_name = some tf →
        IsCosineSim q r.embedding (1 - dist q r.embedding)) →
      ∀ c ∈ retrieve_context dist q tf k store, ∀ s, c.similarity = some s →
        -1 ≤ s ∧ s ≤ 1 := by
  intro dist q tf k store hcos c hc s hs
  have hc2 : c ∈ (searchRows dist q tf k store).map (toCtx dist q) := hc
  obtain ⟨r, hr, rfl⟩ := List.mem_map.mp hc2
  have hrs : r ∈ List.insertionSort (distLe dist q)
      (store.filter fun r => r.table_name == some tf) :=
    (List.take_sublist _ _).subset hr
  have hrm := (List.perm_insertionSort _ _).mem_iff.mp hrs
  obtain ⟨hrstore, hmatch⟩ := List.mem_filter.mp hrm
  have htf2 : r.table_name = some tf := by simpa using hmatch
  have hcosr := hcos r hrstore htf2
  by_cases h0 : 1 - dist q r.embedding = 0
  · exfalso
    have hnone : (toCtx dist q r).similarity = none := by simp [toCtx, h0]
    rw [hnone] at hs
    cases hs
  · have hsome : (toCtx dist q r).similarity =
        some (1 - dist q r.embedding) := by simp [toCtx, h0]
    rw [hsome] at hs
    rw [← Option.some.inj hs]
    exact IsCosineSim.bounds hcosr

/-- C6 witness: the sample store reports similarity 1 for the aligned
document, and 1 lies in [-1, 1]. -/
theorem C6_witness :
    (toCtx distHd e384 rowA).similarity = some 1 ∧ (-1 ≤ (1:ℚ) ∧ (1:ℚ) ≤ 1) := by
  have hsim : (toCtx distHd e384 rowA).similarity = some 1 := by
    show (let s := 1 - distHd e384 rowA.embedding;
      if s = 0 then none else some s) = some 1
    rw [rowA_embedding, distHd_e384]
    norm_num
  refine ⟨hsim, ?_⟩
  refine C6_similarity_range distHd e384 "dda_transactions" 6 [rowA] ?_
    (toCtx distHd e384 rowA) ?_ 1 hsim
  · intro r hr htfr
    have : r = rowA := List.mem_singleton.mp hr
    rw [this, rowA_embedding, distHd_e384, show (1:ℚ) - 0 = 1 by norm_num]
    exact IsCosineSim_e384_e384
  · show toCtx distHd e384 rowA ∈
      (searchRows distHd e384 "dda_transactions" 6 [rowA]).map (toCtx distHd e384)
    exact List.mem_singleton.mpr rfl

/-- Evaluation of the sample search: the row at distance 0 sorts before
the row at distance 2. -/
theorem searchRows_pairBA :
    searchRows distHd e384 "dda_transactions" 2 [rowB, rowA] = [rowA, rowB] := by
  have hnle : ¬ distLe distHd e384 rowB rowA := by
    show ¬ distHd e384 rowB.embedding ≤ distHd e384 rowA.embedding
    rw [rowA_embedding, rowB_embedding, distHd_e384, distHd_negE384]
    norm_num
  have hsort : List.insertionSort (distLe distHd e384) [rowB, rowA] = [rowA, rowB] := by
    show List.orderedInsert (distLe distHd e384) rowB [rowA] = [rowA, rowB]
    show (if distLe distHd e384 rowB rowA then rowB :: [rowA]
          else rowA :: List.orderedInsert (distLe distHd e384) rowB []) = [rowA, rowB]
    rw [if_neg hnle]
    rfl
  show (List.insertionSort (distLe distHd e384)
    (([rowB, rowA] : List Row).filter fun r =>
      r.table_name == some "dda_transactions")).take 2 = [rowA, rowB]
  have hfil : ([rowB, rowA] : List Row).filter
      (fun r => r.table_name == some "dda_transactions") = [rowB, rowA] := rfl
  rw [hfil, hsort]
  rfl

/-- C4 witness: in the two-row sample store the farther row sits at
position 1 of the result, and the closer row indeed occupies an earlier
position. -/
theorem C4_witness :
    ∃ (i : Nat)
      (hi : i < (searchRows distHd e384 "dda_transactions" 2 [rowB, rowA]).length),
      i < 1 ∧
      (searchRows distHd e384 "dda_transactions" 2 [rowB, rowA]).get ⟨i, hi⟩ = rowA := by
  have hj : 1 < (searchRows distHd e384 "dda_transactions" 2 [rowB, rowA]).length := by
    rw [searchRows_pairBA]
    norm_num
  refine (C4_ranking_monotonicity distHd e384 "dda_transactions" 2 [rowB, rowA]).2.2
    rowA (by simp) rfl 1 hj ?_
  have h1 : (searchRows distHd e384 "dda_transactions" 2 [rowB, rowA]).get ⟨1, hj⟩ =
      rowB := by
    rw [List.get_of_eq searchRows_pairBA ⟨1, hj⟩]
    rfl
  rw [h1, rowA_embedding, rowB_embedding, distHd_e384, distHd_negE384]
  norm_num
